import Mathlib

/-!
Shallow embedding of the BeamV3 structural-analysis engine
(`src/utils/beamCalculator.ts`, the variant imported by the application,
with `POINTS = 200`), together with theorems settling the specification
claims about it.  JavaScript numbers are modelled by `ℚ` (exact
arithmetic); a JavaScript division is modelled by `jsdiv`, which returns
`none` exactly when the divisor is zero — in JavaScript such a division
yields `Infinity`, `-Infinity` or `NaN`, i.e. a non-finite number, so
`none` stands for "non-finite result".
-/

namespace BeamV3

/-- `BeamType` from `src/types.ts`: 'simple' | 'cantilever-left' | 'cantilever-right'. -/
inductive BeamType
| simple
| cantileverLeft
| cantileverRight
deriving DecidableEq, Repr

/-- `LoadType` from `src/types.ts`: 'point' | 'distributed' | 'moment'. -/
inductive LoadType
| point
| distributed
| moment
deriving DecidableEq, Repr

/-- `Load` from `src/types.ts`.  The `id` string is irrelevant to the engine and
omitted; `length` is the optional distributed-load span (`length?: number`). -/
structure Load where
  type : LoadType
  value : ℚ
  position : ℚ
  length : Option ℚ := none
deriving DecidableEq, Repr

/-- `Material` from `src/types.ts`. -/
structure Material where
  name : String
  E : ℚ
  yieldStrength : ℚ
deriving DecidableEq, Repr

/-- `Profile` from `src/types.ts`. -/
structure Profile where
  name : String
  I : ℚ
  W : ℚ
deriving DecidableEq, Repr

/-- `BeamState` from `src/types.ts`. -/
structure BeamState where
  length : ℚ
  type : BeamType
  supportA : ℚ
  supportB : ℚ
  loads : List Load
  material : Material
  profile : Profile
  customI : Option ℚ := none
  customW : Option ℚ := none
deriving DecidableEq, Repr

/-- `Reactions` from `src/types.ts`. -/
structure Reactions where
  Ra : ℚ
  Rb : ℚ
  Ma : ℚ
deriving DecidableEq, Repr

/-- `CalculationResult` from `src/types.ts`.  `slope` and `deflection` are the
two fields obtained through a division by `EI`; they are `Option ℚ` here, with
`none` modelling the non-finite JavaScript number produced when `EI = 0`. -/
structure CalculationResult where
  x : ℚ
  shear : ℚ
  moment : ℚ
  slope : Option ℚ
  deflection : Option ℚ
deriving DecidableEq, Repr

/-- `PROFILES` from `src/constants.ts`. -/
def PROFILES : List Profile :=
  [ ⟨"Custom", 0, 0⟩
  , ⟨"IPE 100", 171, 171/5⟩
  , ⟨"IPE 160", 869, 109⟩
  , ⟨"IPE 200", 1943, 194⟩
  , ⟨"IPE 240", 3892, 324⟩
  , ⟨"IPE 300", 8356, 557⟩
  , ⟨"HEA 100", 349, 364/5⟩
  , ⟨"HEA 200", 3692, 389⟩ ]

/-- `MATERIALS` from `src/constants.ts`. -/
def MATERIALS : List Material :=
  [ ⟨"Steel (Structure)", 200, 240⟩
  , ⟨"Steel (High Strength)", 210, 345⟩
  , ⟨"Aluminum 6061", 69, 276⟩
  , ⟨"Timber (Pine)", 11, 40⟩
  , ⟨"Concrete (C25/30)", 30, 25⟩ ]

/-- `const POINTS = 200` (`src/utils/beamCalculator.ts` line 3). -/
def POINTS : ℕ := 200

/-- One load's contribution to `totalLoadForce` (lines 17-32).  The source
guard `load.type === 'distributed' && load.length` skips a distributed load
whose `length` is absent (`none`) or `0` (falsy). -/
def loadForce (l : Load) : ℚ :=
  match l.type with
  | .point => l.value
  | .distributed =>
      match l.length with
      | some len => if len = 0 then 0 else l.value * len
      | none => 0
  | .moment => 0

/-- `totalLoadForce` accumulated over the load list (lines 14, 17-32). -/
def totalLoadForce (loads : List Load) : ℚ :=
  (loads.map loadForce).sum

/-- One load's contribution to `sumMomentsAboutA` (lines 66-79 and 94-104):
point `-F*(pos - pivot)`, distributed `-(w*len)*(center - pivot)`,
concentrated moment `+value`. -/
def loadMomentAbout (pivot : ℚ) (l : Load) : ℚ :=
  match l.type with
  | .point => -(l.value * (l.position - pivot))
  | .distributed =>
      match l.length with
      | some len =>
          if len = 0 then 0
          else -((l.value * len) * ((l.position + len/2) - pivot))
      | none => 0
  | .moment => l.value

/-- `sumMomentsAboutA` for a pivot (lines 65-79). -/
def sumMomentsAbout (pivot : ℚ) (loads : List Load) : ℚ :=
  (loads.map (loadMomentAbout pivot)).sum

/-- One load's contribution to `sumMomentsAboutWall` in the cantilever-right
branch (lines 121-138): point `+F*(wallX - pos)`, distributed
`+(w*len)*(wallX - center)`, concentrated moment `+value`. -/
def loadMomentAboutWall (wallX : ℚ) (l : Load) : ℚ :=
  match l.type with
  | .point => l.value * (wallX - l.position)
  | .distributed =>
      match l.length with
      | some len =>
          if len = 0 then 0
          else (l.value * len) * (wallX - (l.position + len/2))
      | none => 0
  | .moment => l.value

/-- `sumMomentsAboutWall` (lines 118-138). -/
def sumMomentsAboutWall (wallX : ℚ) (loads : List Load) : ℚ :=
  (loads.map (loadMomentAboutWall wallX)).sum

/-- `calculateReactions` (`src/utils/beamCalculator.ts` lines 5-152). -/
def calculateReactions (state : BeamState) : Reactions :=
  match state.type with
  | .simple =>
      let dist := state.supportB - state.supportA
      if |dist| < 1/10000 then ⟨0, 0, 0⟩
      else
        let s := sumMomentsAbout state.supportA state.loads
        let reactionB := -s / dist
        let reactionA := totalLoadForce state.loads - reactionB
        ⟨reactionA, reactionB, 0⟩
  | .cantileverLeft =>
      ⟨totalLoadForce state.loads, 0, -(sumMomentsAbout state.supportA state.loads)⟩
  | .cantileverRight =>
      ⟨0, totalLoadForce state.loads, -(sumMomentsAboutWall state.length state.loads)⟩

/-- JavaScript `a || b` applied to the optional `customI` (line 158:
`customI || profile.I`): `0` and `undefined` are falsy and fall back. -/
def jsOrDefault (customI : Option ℚ) (fallback : ℚ) : ℚ :=
  match customI with
  | some c => if c = 0 then fallback else c
  | none => fallback

/-- `I_m4 = (customI || profile.I) / 100000000` (line 158). -/
def I_m4 (state : BeamState) : ℚ :=
  jsOrDefault state.customI state.profile.I / 100000000

/-- `E_kpa = material.E * 1000000` (line 159). -/
def E_kpa (state : BeamState) : ℚ :=
  state.material.E * 1000000

/-- `EI = E_kpa * I_m4` (line 160). -/
def EI (state : BeamState) : ℚ :=
  E_kpa state * I_m4 state

/-- `dx = length / POINTS` (line 162). -/
def dx (state : BeamState) : ℚ :=
  state.length / (POINTS : ℚ)

/-- `x = i * dx` (line 168). -/
def xAt (state : BeamState) (i : ℕ) : ℚ :=
  (i : ℚ) * dx state

/-- Reaction contribution to `shear` at a cut `x` (lines 178-207).  In the
cantilever-left branch the source contains `shear += reactions.Ra` twice
(lines 190 and 203), both inside the same `if (x > supportA)` block, so the
vertical reaction is added twice there. -/
def reactionShear (state : BeamState) (r : Reactions) (x : ℚ) : ℚ :=
  match state.type with
  | .simple =>
      (if state.supportA < x then r.Ra else 0) +
      (if state.supportB < x then r.Rb else 0)
  | .cantileverLeft =>
      if state.supportA < x then r.Ra + r.Ra else 0
  | .cantileverRight => 0

/-- One load's contribution to `shear` at a cut `x` (lines 210-242). -/
def loadShearContrib (x : ℚ) (l : Load) : ℚ :=
  match l.type with
  | .point => if l.position < x then -l.value else 0
  | .distributed =>
      match l.length with
      | some len =>
          if len = 0 then 0
          else if l.position < x then
            let distLen := min x (l.position + len) - l.position
            if 0 < distLen then -(l.value * distLen) else 0
          else 0
      | none => 0
  | .moment => 0

/-- Reaction contribution to `M_internal` (lines 262-275); the source uses
`x >= support` here, and in the cantilever-left branch adds the reaction
moment as `M_internal += reactions.Ma`. -/
def reactionMoment (state : BeamState) (r : Reactions) (x : ℚ) : ℚ :=
  match state.type with
  | .simple =>
      (if state.supportA ≤ x then r.Ra * (x - state.supportA) else 0) +
      (if state.supportB ≤ x then r.Rb * (x - state.supportB) else 0)
  | .cantileverLeft =>
      if state.supportA ≤ x then r.Ra * (x - state.supportA) + r.Ma else 0
  | .cantileverRight => 0

/-- One load's contribution to `M_internal` (lines 277-299). -/
def loadMomentContrib (x : ℚ) (l : Load) : ℚ :=
  match l.type with
  | .point => if l.position < x then -(l.value * (x - l.position)) else 0
  | .distributed =>
      match l.length with
      | some len =>
          if len = 0 then 0
          else if l.position < x then
            let distLen := min x (l.position + len) - l.position
            if 0 < distLen then
              -((l.value * distLen) * (x - (l.position + distLen/2)))
            else 0
          else 0
      | none => 0
  | .moment => if l.position < x then l.value else 0

/-- Pass-1 shear at sample `i` (before the near-zero snap of line 390). -/
def shearAt (state : BeamState) (i : ℕ) : ℚ :=
  reactionShear state (calculateReactions state) (xAt state i) +
  (state.loads.map (loadShearContrib (xAt state i))).sum

/-- Pass-1 internal moment at sample `i` (before the near-zero snap of
line 391). -/
def momentAt (state : BeamState) (i : ℕ) : ℚ :=
  reactionMoment state (calculateReactions state) (xAt state i) +
  (state.loads.map (loadMomentContrib (xAt state i))).sum

/-- Running first integral of the moment curve, `theta` of lines 311-335:
`theta += ((mPrev + mCurr)/2) * dx`, starting from `0`. -/
def thetaAt (state : BeamState) : ℕ → ℚ
  | 0 => 0
  | i + 1 =>
      thetaAt state i + ((momentAt state i + momentAt state (i+1)) / 2) * dx state

/-- Running second integral, `y` of lines 311-335:
`y += ((tPrev + tCurr)/2) * dx`, starting from `0`. -/
def yAt (state : BeamState) : ℕ → ℚ
  | 0 => 0
  | i + 1 =>
      yAt state i + ((thetaAt state i + thetaAt state (i+1)) / 2) * dx state

/-- JavaScript `Math.round`: round half toward positive infinity. -/
def jround (q : ℚ) : ℤ :=
  ⌊q + 1/2⌋

/-- `Math.min(Math.max(Math.round(pos/dx), 0), POINTS)` (lines 349, 365-366). -/
def supportIdx (state : BeamState) (pos : ℚ) : ℕ :=
  min (max (jround (pos / dx state)) 0).toNat POINTS

/-- Boundary-condition resolution (lines 337-380), returning `(C1, C2)`. -/
def integConstants (state : BeamState) : ℚ × ℚ :=
  match state.type with
  | .cantileverLeft =>
      let idx := supportIdx state state.supportA
      let c1 := -(thetaAt state idx)
      (c1, -(yAt state idx) - c1 * state.supportA)
  | .cantileverRight =>
      let c1 := -(thetaAt state POINTS)
      (c1, -(yAt state POINTS) - c1 * state.length)
  | .simple =>
      if 1/10000 < |state.supportB - state.supportA| then
        let idxA := supportIdx state state.supportA
        let idxB := supportIdx state state.supportB
        let c1 := (yAt state idxA - yAt state idxB) /
                  (state.supportB - state.supportA)
        (c1, -(yAt state idxA) - c1 * state.supportA)
      else (0, 0)

/-- A JavaScript division: the result is a finite number exactly when the
divisor is non-zero; `none` stands for the non-finite result (`NaN` or
`±Infinity`) produced by a zero divisor. -/
def jsdiv (a b : ℚ) : Option ℚ :=
  if b = 0 then none else some (a / b)

/-- The near-zero snap of lines 390-392: values with `|v| < 1e-5` become `0`. -/
def snapQ (v : ℚ) : ℚ :=
  if |v| < 1/100000 then 0 else v

/-- The snap applied to a possibly non-finite value: `Math.abs(NaN) < 1e-5`
and `Math.abs(Infinity) < 1e-5` are false, so a non-finite value is kept. -/
def snapOpt (v : Option ℚ) : Option ℚ :=
  v.map snapQ

/-- Final slope at sample `i`: `(theta + C1) / EI` (line 385); not snapped. -/
def slopeAt (state : BeamState) (i : ℕ) : Option ℚ :=
  jsdiv (thetaAt state i + (integConstants state).1) (EI state)

/-- Final deflection at sample `i`:
`((y + C1*x + C2) / EI) * 1000`, then snapped (lines 387, 392). -/
def deflectionAt (state : BeamState) (i : ℕ) : Option ℚ :=
  snapOpt ((jsdiv (yAt state i + (integConstants state).1 * xAt state i +
                   (integConstants state).2) (EI state)).map (fun v => v * 1000))

/-- The finalized sample at index `i` (lines 301-308 and 383-393). -/
def sampleAt (state : BeamState) (i : ℕ) : CalculationResult :=
  ⟨xAt state i, snapQ (shearAt state i), snapQ (momentAt state i),
   slopeAt state i, deflectionAt state i⟩

/-- `calculateDiagrams` (`src/utils/beamCalculator.ts` lines 154-396): the
result sequence of `POINTS + 1` samples. -/
def calculateDiagrams (state : BeamState) : List CalculationResult :=
  (List.range (POINTS + 1)).map (sampleAt state)

/-- The force a load applies, following the specification's words: "each point
load's magnitude plus each distributed load's intensity × spanLength"
(a distributed load with no span contributes nothing); concentrated moments
contribute nothing to the force balance.  This definition is written from the
spec, to be compared with `totalLoadForce`, which is written from the source. -/
def specLoadForce (l : Load) : ℚ :=
  match l.type with
  | .point => l.value
  | .distributed => l.value * l.length.getD 0
  | .moment => 0

/-- The spec's "sum of the applied downward force magnitudes". -/
def specAppliedForce (loads : List Load) : ℚ :=
  (loads.map specLoadForce).sum

/- Concrete beams used to evaluate the engine at specific inputs. -/

/-- 'Steel (Structure)' from `src/constants.ts`. -/
def steel : Material := ⟨"Steel (Structure)", 200, 240⟩

/-- 'IPE 100' from `src/constants.ts`. -/
def ipe100 : Profile := ⟨"IPE 100", 171, 171/5⟩

/-- 'Custom' from `src/constants.ts` (second moment of area `I = 0`). -/
def customP : Profile := ⟨"Custom", 0, 0⟩

/-- CantileverFixedLeft, length 10, fixity at 0, a single point load of
magnitude 10 at the free end (the spec's concrete scenario 2). -/
def tipLoadCantilever : BeamState :=
  { length := 10, type := .cantileverLeft, supportA := 0, supportB := 10,
    loads := [⟨.point, 10, 10, none⟩], material := steel, profile := ipe100 }

/-- A cantilever with the Custom profile and no `customI`: `EI = 0`. -/
def zeroStiffnessBeam : BeamState :=
  { length := 10, type := .cantileverLeft, supportA := 0, supportB := 10,
    loads := [], material := steel, profile := customP }

/-- Simple beam whose supports coincide, carrying a point load. -/
def degenerateLoadedBeam : BeamState :=
  { length := 10, type := .simple, supportA := 2, supportB := 2,
    loads := [⟨.point, 10, 5, none⟩], material := steel, profile := ipe100 }

/-- Ordinary simple beam with a point load, a distributed load and a
concentrated moment. -/
def standardSimpleBeam : BeamState :=
  { length := 10, type := .simple, supportA := 0, supportB := 10,
    loads := [⟨.point, 10, 5, none⟩, ⟨.distributed, 2, 0, some 10⟩,
              ⟨.moment, 5, 3, none⟩],
    material := steel, profile := ipe100 }

/-- Simple beam with coincident supports and a point load at 0. -/
def coincidentSupportBeam : BeamState :=
  { length := 10, type := .simple, supportA := 5, supportB := 5,
    loads := [⟨.point, 10, 0, none⟩], material := steel, profile := ipe100 }

/-- Simple beam with the Custom profile (`EI = 0`) and no loads. -/
def zeroStiffnessSimpleBeam : BeamState :=
  { length := 10, type := .simple, supportA := 0, supportB := 10,
    loads := [], material := steel, profile := customP }

/-- Ordinary simple beam with no loads. -/
def emptyLoadBeam : BeamState :=
  { length := 10, type := .simple, supportA := 0, supportB := 10,
    loads := [], material := steel, profile := ipe100 }

/-- Cantilever fixed at the left end with a tip load and the Custom profile
(`EI = 0`). -/
def zeroStiffnessCantilever : BeamState :=
  { length := 10, type := .cantileverLeft, supportA := 0, supportB := 10,
    loads := [⟨.point, 10, 10, none⟩], material := steel, profile := customP }

/-- Cantilever fixed at the right end with a midspan point load. -/
def rightFixedBeam : BeamState :=
  { length := 10, type := .cantileverRight, supportA := 0, supportB := 10,
    loads := [⟨.point, 10, 5, none⟩], material := steel, profile := ipe100 }

/-- Beam with the Custom profile and `customI` explicitly set to `0`. -/
def customZeroBeam : BeamState :=
  { length := 10, type := .simple, supportA := 0, supportB := 10,
    loads := [], material := steel, profile := customP, customI := some 0 }

/-! ## Helper lemmas -/

lemma snapQ_of_le {v : ℚ} (h : 1/100000 ≤ |v|) : snapQ v = v := by
  unfold snapQ
  rw [if_neg (not_lt.mpr h)]

lemma snapQ_zero : snapQ 0 = 0 := by
  unfold snapQ
  norm_num

lemma thetaAt_zero (state : BeamState) : thetaAt state 0 = 0 := rfl

lemma thetaAt_succ (state : BeamState) (i : ℕ) :
    thetaAt state (i + 1) =
      thetaAt state i + ((momentAt state i + momentAt state (i+1)) / 2) * dx state :=
  rfl

lemma yAt_zero (state : BeamState) : yAt state 0 = 0 := rfl

lemma yAt_succ (state : BeamState) (i : ℕ) :
    yAt state (i + 1) =
      yAt state i + ((thetaAt state i + thetaAt state (i+1)) / 2) * dx state :=
  rfl

lemma loadForce_eq_spec (l : Load) : loadForce l = specLoadForce l := by
  rcases l with ⟨t, v, p, len⟩
  cases t <;> cases len <;>
    simp only [loadForce, specLoadForce, Option.getD_some, Option.getD_none,
               mul_zero]
  split <;> simp [*]

lemma totalLoadForce_eq_spec (loads : List Load) :
    totalLoadForce loads = specAppliedForce loads := by
  unfold totalLoadForce specAppliedForce
  induction loads with
  | nil => rfl
  | cons l rest ih => simp [loadForce_eq_spec, ih]

/-! ## Claim theorems -/

/-- C1 (code bug): the claim states that the Pass-2 division is guarded and
that a zero flexural stiffness yields zero slope and deflection.  The code
has no such guard: at a beam with the Custom profile (`profile.I = 0`) and no
`customI`, `EI` evaluates to `0` and the slope and deflection fields of every
sample are the non-finite result of a division by zero (`none`; in JavaScript
`NaN` or `±Infinity`), not zero. -/
theorem C1_zero_stiffness_unguarded :
    EI zeroStiffnessBeam = 0 ∧
    (sampleAt zeroStiffnessBeam 0).slope = none ∧
    (sampleAt zeroStiffnessBeam 0).deflection = none := by
  have hEI : EI zeroStiffnessBeam = 0 := by
    norm_num [EI, E_kpa, I_m4, jsOrDefault, zeroStiffnessBeam, customP, steel]
  refine ⟨hEI, ?_, ?_⟩
  · simp [sampleAt, slopeAt, jsdiv, hEI]
  · simp [sampleAt, deflectionAt, jsdiv, snapOpt, hEI]

/-- C2 (code bug): for the cantilever with a tip load the reactions are as
claimed (`Ra = 10`, `Ma = 100`), but the sampled bending moment is `100.5`
at the first sample after `0` (the claim says `100`) and `200` at the free
end `x = 10` (the claim says `0`): `calculateDiagrams` adds the wall reaction
moment to the internal moment with the wrong sign (`M_internal +=
reactions.Ma`), so the moment grows toward the free end instead of
vanishing there. -/
theorem C2_cantilever_tip_load_eval :
    calculateReactions tipLoadCantilever = ⟨10, 0, 100⟩ ∧
    (sampleAt tipLoadCantilever 1).moment = 201/2 ∧
    (sampleAt tipLoadCantilever 200).moment = 200 := by
  have hR : calculateReactions tipLoadCantilever = ⟨10, 0, 100⟩ := by
    simp [calculateReactions, tipLoadCantilever, totalLoadForce,
          sumMomentsAbout, loadForce, loadMomentAbout]
    norm_num
  have hM1 : momentAt tipLoadCantilever 1 = 201/2 := by
    unfold momentAt
    rw [hR]
    simp [tipLoadCantilever, reactionMoment, loadMomentContrib, xAt, dx, POINTS]
    norm_num
  have hM200 : momentAt tipLoadCantilever 200 = 200 := by
    unfold momentAt
    rw [hR]
    simp [tipLoadCantilever, reactionMoment, loadMomentContrib, xAt, dx, POINTS]
    norm_num
  refine ⟨hR, ?_, ?_⟩
  · show snapQ (momentAt tipLoadCantilever 1) = 201/2
    rw [hM1, snapQ_of_le (by rw [abs_of_nonneg (by norm_num)]; norm_num)]
  · show snapQ (momentAt tipLoadCantilever 200) = 200
    rw [hM200, snapQ_of_le (by rw [abs_of_nonneg (by norm_num)]; norm_num)]

/-- C5 (code bug): the claim states each support reaction force contributes
`+R` to shear exactly once when its position is left of the cut.  In the
cantilever-left branch the source contains `shear += reactions.Ra` twice
(lines 190 and 203 of `src/utils/beamCalculator.ts`), both guarded by the same
`x > supportA`, so the sampled shear is `2·Ra = 20` rather than `Ra = 10`. -/
theorem C5_reaction_shear_double_count :
    (calculateReactions tipLoadCantilever).Ra = 10 ∧
    (sampleAt tipLoadCantilever 1).shear =
      2 * (calculateReactions tipLoadCantilever).Ra := by
  have hR : calculateReactions tipLoadCantilever = ⟨10, 0, 100⟩ := by
    simp [calculateReactions, tipLoadCantilever, totalLoadForce,
          sumMomentsAbout, loadForce, loadMomentAbout]
    norm_num
  have hS : shearAt tipLoadCantilever 1 = 20 := by
    unfold shearAt
    rw [hR]
    simp [tipLoadCantilever, reactionShear, loadShearContrib, xAt, dx, POINTS]
    norm_num
  refine ⟨by rw [hR], ?_⟩
  show snapQ (shearAt tipLoadCantilever 1) = _
  rw [hS, hR, snapQ_of_le (by rw [abs_of_nonneg (by norm_num)]; norm_num)]
  norm_num

/-- C6 (confirmed): in Pass 1 every load guard is a strict inequality
`x > load.position`, so a load (point, distributed, or concentrated moment)
located exactly at the sample position contributes nothing to the shear or
the moment of that sample; its jump first appears at the next sample. -/
theorem C6_strict_inequality_at_sample (l : Load) (x : ℚ)
    (h : l.position = x) :
    loadShearContrib x l = 0 ∧ loadMomentContrib x l = 0 := by
  rcases l with ⟨t, v, p, len⟩
  simp only at h
  subst h
  cases t <;> cases len <;>
    simp [loadShearContrib, loadMomentContrib, lt_irrefl]

/-- Witness for C6: a point load of magnitude 10 exactly at the sample
position 5 contributes nothing there. -/
theorem C6_strict_inequality_witness :
    loadShearContrib 5 ⟨.point, 10, 5, none⟩ = 0 ∧
    loadMomentContrib 5 ⟨.point, 10, 5, none⟩ = 0 :=
  C6_strict_inequality_at_sample ⟨.point, 10, 5, none⟩ 5 rfl

/-- C10 (confirmed): a `customI` of exactly `0` (or an absent `customI`) is
ignored by `calculateDiagrams` — `customI || profile.I` falls back to the
profile's second moment of area, so a zero custom value cannot be specified;
and whenever `profile.I = 0` (the Custom profile) the flexural stiffness
`EI` evaluates to `0`. -/
theorem C10_customI_fallback (state : BeamState)
    (h : state.customI = some 0 ∨ state.customI = none) :
    I_m4 state = state.profile.I / 100000000 ∧
    (state.profile.I = 0 → EI state = 0) := by
  have hI : jsOrDefault state.customI state.profile.I = state.profile.I := by
    rcases h with h | h <;> rw [h] <;> simp [jsOrDefault]
  constructor
  · rw [I_m4, hI]
  · intro h0
    rw [EI, I_m4, hI, h0]
    norm_num

/-- Reactions with an empty load list are all zero (all three beam kinds). -/
lemma calculateReactions_nil (state : BeamState) (h : state.loads = []) :
    calculateReactions state = ⟨0, 0, 0⟩ := by
  cases htype : state.type with
  | simple =>
      simp [calculateReactions, htype, h, totalLoadForce, sumMomentsAbout]
  | cantileverLeft =>
      simp [calculateReactions, htype, h, totalLoadForce, sumMomentsAbout]
  | cantileverRight =>
      simp [calculateReactions, htype, h, totalLoadForce, sumMomentsAboutWall]

lemma reactionShear_zero (state : BeamState) (x : ℚ) :
    reactionShear state ⟨0, 0, 0⟩ x = 0 := by
  cases htype : state.type <;> simp [reactionShear, htype]

lemma reactionMoment_zero (state : BeamState) (x : ℚ) :
    reactionMoment state ⟨0, 0, 0⟩ x = 0 := by
  cases htype : state.type <;> simp [reactionMoment, htype]

lemma shearAt_nil (state : BeamState) (h : state.loads = []) (i : ℕ) :
    shearAt state i = 0 := by
  unfold shearAt
  rw [calculateReactions_nil state h, h, reactionShear_zero]
  simp

lemma momentAt_nil (state : BeamState) (h : state.loads = []) (i : ℕ) :
    momentAt state i = 0 := by
  unfold momentAt
  rw [calculateReactions_nil state h, h, reactionMoment_zero]
  simp

lemma thetaAt_nil (state : BeamState) (h : state.loads = []) :
    ∀ i, thetaAt state i = 0 := by
  intro i
  induction i with
  | zero => rfl
  | succ n ihn =>
      rw [thetaAt_succ, ihn, momentAt_nil state h, momentAt_nil state h]
      ring

lemma yAt_nil (state : BeamState) (h : state.loads = []) :
    ∀ i, yAt state i = 0 := by
  intro i
  induction i with
  | zero => rfl
  | succ n ihn =>
      rw [yAt_succ, ihn, thetaAt_nil state h, thetaAt_nil state h]
      ring

lemma integConstants_nil (state : BeamState) (h : state.loads = []) :
    integConstants state = (0, 0) := by
  cases htype : state.type with
  | simple =>
      simp [integConstants, htype, yAt_nil state h]
  | cantileverLeft =>
      simp [integConstants, htype, thetaAt_nil state h, yAt_nil state h]
  | cantileverRight =>
      simp [integConstants, htype, thetaAt_nil state h, yAt_nil state h]

/-- C3 counterexample: the claim quantifies over every BeamState, but a Simple
beam whose supports coincide takes the degenerate fallback and returns
all-zero reactions, so the reaction sum `0` misses the applied force `10`. -/
theorem C3_degenerate_counterexample :
    (calculateReactions degenerateLoadedBeam).Ra +
        (calculateReactions degenerateLoadedBeam).Rb = 0 ∧
    specAppliedForce degenerateLoadedBeam.loads = 10 := by
  have h : calculateReactions degenerateLoadedBeam = ⟨0, 0, 0⟩ := by
    norm_num [calculateReactions, degenerateLoadedBeam]
  rw [h]
  norm_num [specAppliedForce, specLoadForce, degenerateLoadedBeam]

/-- C3 as amended: for every BeamState that is not a degenerate Simple beam
(for Simple, `|supportB - supportA| ≥ 1e-4`), the sum of the vertical
reactions `Ra + Rb` equals the sum of applied downward force magnitudes
(point magnitudes plus distributed intensity × spanLength; concentrated
moments contribute nothing).  The arithmetic here is exact (`ℚ`), so the
equality is exact rather than within floating-point tolerance. -/
theorem C3_force_balance (state : BeamState)
    (h : state.type = .simple →
      1/10000 ≤ |state.supportB - state.supportA|) :
    (calculateReactions state).Ra + (calculateReactions state).Rb =
      specAppliedForce state.loads := by
  rw [← totalLoadForce_eq_spec]
  cases htype : state.type with
  | simple =>
      have hnd : ¬(|state.supportB - state.supportA| < 1/10000) :=
        not_lt.mpr (h htype)
      simp only [calculateReactions, htype]
      rw [if_neg hnd]
      ring
  | cantileverLeft =>
      simp [calculateReactions, htype]
  | cantileverRight =>
      simp [calculateReactions, htype]

/-- Witness for C3: an ordinary simple beam with a point load, a distributed
load and a concentrated moment balances `Ra + Rb` against the applied 30. -/
theorem C3_force_balance_witness :
    (standardSimpleBeam.type = .simple →
      1/10000 ≤ |standardSimpleBeam.supportB - standardSimpleBeam.supportA|) ∧
    (calculateReactions standardSimpleBeam).Ra +
        (calculateReactions standardSimpleBeam).Rb =
      specAppliedForce standardSimpleBeam.loads := by
  have hgap : 1/10000 ≤ |standardSimpleBeam.supportB - standardSimpleBeam.supportA| := by
    have h10 : standardSimpleBeam.supportB - standardSimpleBeam.supportA = 10 := by
      norm_num [standardSimpleBeam]
    rw [h10, abs_of_nonneg (by norm_num : (0:ℚ) ≤ 10)]
    norm_num
  exact ⟨fun _ => hgap, C3_force_balance standardSimpleBeam (fun _ => hgap)⟩

/-- JavaScript `Math.round` of a natural number plus nothing: the floor of
`k + 1/2` is `k`. -/
lemma floor_add_half (k : ℕ) : ⌊(k : ℚ) + 1/2⌋ = k := by
  rw [show ((k:ℚ) + 1/2) = ((k:ℤ):ℚ) + 1/2 by push_cast; ring,
      Int.floor_int_add]
  norm_num

/-- When a support lies exactly on sample point `k ≤ POINTS`, the clamped
rounded index computed at lines 349 and 365-366 is `k` itself. -/
lemma supportIdx_eq (state : BeamState) (k : ℕ) (hk : k ≤ POINTS)
    (hdx : dx state ≠ 0) (pos : ℚ) (hpos : pos = (k : ℚ) * dx state) :
    supportIdx state pos = k := by
  unfold supportIdx jround
  rw [hpos, mul_div_assoc, div_self hdx, mul_one, floor_add_half,
      max_eq_left (Int.natCast_nonneg k), Int.toNat_natCast]
  exact min_eq_left hk

/-- The last sample's position is exactly the beam length. -/
lemma xAt_POINTS (state : BeamState) : xAt state POINTS = state.length := by
  rw [xAt, dx, mul_div_assoc']
  exact mul_div_cancel_left₀ _ (Nat.cast_ne_zero.mpr (by norm_num [POINTS]))

/-- C4 counterexample: a Simple beam with coincident supports and a point
load does leave the integration constants at zero, but the deflection curve
is the raw (uncorrected) integral of the moment field, which is not zero:
at the first sample it is `-(5/5472)` mm. -/
theorem C4_coincident_deflection_counterexample :
    coincidentSupportBeam.supportA = coincidentSupportBeam.supportB ∧
    integConstants coincidentSupportBeam = (0, 0) ∧
    deflectionAt coincidentSupportBeam 1 ≠ some 0 := by
  have hR : calculateReactions coincidentSupportBeam = ⟨0, 0, 0⟩ := by
    norm_num [calculateReactions, coincidentSupportBeam]
  have hC : integConstants coincidentSupportBeam = (0, 0) := by
    norm_num [integConstants, coincidentSupportBeam]
  have hM0 : momentAt coincidentSupportBeam 0 = 0 := by
    unfold momentAt
    rw [hR]
    simp [coincidentSupportBeam, reactionMoment, loadMomentContrib, xAt, dx,
          POINTS]
  have hM1 : momentAt coincidentSupportBeam 1 = -(1/2) := by
    unfold momentAt
    rw [hR]
    simp [coincidentSupportBeam, reactionMoment, loadMomentContrib, xAt, dx,
          POINTS]
    norm_num
  have hT1 : thetaAt coincidentSupportBeam 1 = -(1/80) := by
    have h01 : thetaAt coincidentSupportBeam 1 =
        0 + ((momentAt coincidentSupportBeam 0 +
              momentAt coincidentSupportBeam 1) / 2) *
            dx coincidentSupportBeam := rfl
    rw [h01, hM0, hM1]
    norm_num [dx, coincidentSupportBeam, POINTS]
  have hY1 : yAt coincidentSupportBeam 1 = -(1/3200) := by
    have h01 : yAt coincidentSupportBeam 1 =
        0 + ((thetaAt coincidentSupportBeam 0 +
              thetaAt coincidentSupportBeam 1) / 2) *
            dx coincidentSupportBeam := rfl
    rw [h01, thetaAt_zero, hT1]
    norm_num [dx, coincidentSupportBeam, POINTS]
  have hEI : EI coincidentSupportBeam = 342 := by
    norm_num [EI, E_kpa, I_m4, jsOrDefault, coincidentSupportBeam, ipe100,
              steel]
  refine ⟨rfl, hC, ?_⟩
  have harg : yAt coincidentSupportBeam 1 +
      (integConstants coincidentSupportBeam).1 * xAt coincidentSupportBeam 1 +
      (integConstants coincidentSupportBeam).2 = -(1/3200) := by
    rw [hC, hY1]
    norm_num
  have hjs : jsdiv (-(1/3200)) (EI coincidentSupportBeam) =
      some (-(1/1094400)) := by
    rw [hEI]
    norm_num [jsdiv]
  show snapOpt ((jsdiv (yAt coincidentSupportBeam 1 +
      (integConstants coincidentSupportBeam).1 * xAt coincidentSupportBeam 1 +
      (integConstants coincidentSupportBeam).2)
      (EI coincidentSupportBeam)).map (fun v => v * 1000)) ≠ some 0
  rw [harg, hjs]
  show snapOpt (some (-(1/1094400) * 1000)) ≠ some 0
  have hv : (-(1/1094400) : ℚ) * 1000 = -(5/5472) := by norm_num
  simp only [snapOpt, Option.map_some']
  rw [hv, snapQ_of_le (by rw [abs_of_nonpos (by norm_num)]; norm_num)]
  norm_num

/-- C4 as amended: for a Simple beam whose supports coincide within the
`1e-4` tolerance, `calculateReactions` returns all-zero reactions and the
boundary solve leaves `C1 = C2 = 0`; the deflection at each sample is then
the unshifted integral `(y₀[i]/EI)·1000` (after snapping), which is zero for
an empty load list but not for every load list (see the counterexample). -/
theorem C4_degenerate_fallback (state : BeamState)
    (htype : state.type = .simple)
    (hdeg : |state.supportB - state.supportA| < 1/10000) :
    calculateReactions state = ⟨0, 0, 0⟩ ∧
    integConstants state = (0, 0) ∧
    ∀ i, deflectionAt state i =
      snapOpt ((jsdiv (yAt state i) (EI state)).map (fun v => v * 1000)) := by
  have hR : calculateReactions state = ⟨0, 0, 0⟩ := by
    simp only [calculateReactions, htype]
    rw [if_pos hdeg]
  have hC : integConstants state = (0, 0) := by
    simp only [integConstants, htype]
    rw [if_neg (not_lt.mpr (le_of_lt hdeg))]
  refine ⟨hR, hC, fun i => ?_⟩
  simp only [deflectionAt, hC]
  norm_num

/-- Witness for C4: the coincident-support beam satisfies the degeneracy
hypothesis and its sample-1 deflection equals the unshifted integral. -/
theorem C4_degenerate_fallback_witness :
    coincidentSupportBeam.type = .simple ∧
    |coincidentSupportBeam.supportB - coincidentSupportBeam.supportA| <
      1/10000 ∧
    deflectionAt coincidentSupportBeam 1 =
      snapOpt ((jsdiv (yAt coincidentSupportBeam 1)
        (EI coincidentSupportBeam)).map (fun v => v * 1000)) := by
  have hdeg : |coincidentSupportBeam.supportB - coincidentSupportBeam.supportA| <
      1/10000 := by
    have h0 : coincidentSupportBeam.supportB - coincidentSupportBeam.supportA = 0 := by
      norm_num [coincidentSupportBeam]
    rw [h0, abs_zero]
    norm_num
  exact ⟨rfl, hdeg, (C4_degenerate_fallback coincidentSupportBeam rfl hdeg).2.2 1⟩

/-- C8 counterexample: the boundary samples are only "numerically zero" when
`EI ≠ 0`; for a cantilever with the Custom profile (`EI = 0`) the slope at
the support's sample is the non-finite result of a division by zero. -/
theorem C8_boundary_counterexample :
    zeroStiffnessCantilever.type = .cantileverLeft ∧
    supportIdx zeroStiffnessCantilever zeroStiffnessCantilever.supportA = 0 ∧
    (sampleAt zeroStiffnessCantilever 0).slope ≠ some 0 := by
  have hEI : EI zeroStiffnessCantilever = 0 := by
    norm_num [EI, E_kpa, I_m4, jsOrDefault, zeroStiffnessCantilever, customP,
              steel]
  refine ⟨rfl, ?_, ?_⟩
  · have h0 : zeroStiffnessCantilever.supportA =
        (0 : ℚ) * dx zeroStiffnessCantilever := by
      norm_num [zeroStiffnessCantilever]
    exact supportIdx_eq zeroStiffnessCantilever 0 (by norm_num [POINTS])
      (by norm_num [dx, POINTS, zeroStiffnessCantilever]) _ (by exact_mod_cast h0)
  · show slopeAt zeroStiffnessCantilever 0 ≠ some 0
    simp [slopeAt, jsdiv, hEI]

/-- C8 as amended: provided the flexural stiffness is nonzero (with `EI = 0`
the unguarded division makes the boundary samples non-finite instead — see
the counterexample), the resolved curve satisfies the boundary conditions
exactly: for CantileverFixedLeft with `supportA` on sample point `k`, slope
and deflection vanish at sample `k`; for CantileverFixedRight they vanish at
the last sample; for Simple with both supports on sample points and farther
apart than the `1e-4` degeneracy tolerance, deflection vanishes at both
support samples. -/
theorem C8_boundary_conditions (state : BeamState)
    (hL : 0 < state.length) (hEI : EI state ≠ 0) :
    (∀ k : ℕ, state.type = .cantileverLeft → k ≤ POINTS →
      state.supportA = (k : ℚ) * dx state →
      slopeAt state k = some 0 ∧ deflectionAt state k = some 0) ∧
    (state.type = .cantileverRight →
      slopeAt state POINTS = some 0 ∧ deflectionAt state POINTS = some 0) ∧
    (∀ ka kb : ℕ, state.type = .simple → ka ≤ POINTS → kb ≤ POINTS →
      state.supportA = (ka : ℚ) * dx state →
      state.supportB = (kb : ℚ) * dx state →
      1/10000 < |state.supportB - state.supportA| →
      deflectionAt state ka = some 0 ∧ deflectionAt state kb = some 0) := by
  have hdx : dx state ≠ 0 := by
    rw [dx]
    exact div_ne_zero (ne_of_gt hL) (by norm_num [POINTS])
  refine ⟨?_, ?_, ?_⟩
  · intro k htype hk hA
    have hidx := supportIdx_eq state k hk hdx state.supportA hA
    have hC : integConstants state =
        (-(thetaAt state k),
         -(yAt state k) - -(thetaAt state k) * state.supportA) := by
      simp only [integConstants, htype, hidx]
    constructor
    · simp only [slopeAt, hC]
      simp [jsdiv, hEI]
    · simp only [deflectionAt, hC]
      have hx : xAt state k = state.supportA := by rw [xAt, ← hA]
      rw [hx]
      have harg : yAt state k + -(thetaAt state k) * state.supportA +
          (-(yAt state k) - -(thetaAt state k) * state.supportA) = 0 := by
        ring
      rw [harg]
      simp [jsdiv, hEI, snapOpt, snapQ_zero]
  · intro htype
    have hC : integConstants state =
        (-(thetaAt state POINTS),
         -(yAt state POINTS) - -(thetaAt state POINTS) * state.length) := by
      simp only [integConstants, htype]
    constructor
    · simp only [slopeAt, hC]
      simp [jsdiv, hEI]
    · simp only [deflectionAt, hC]
      rw [xAt_POINTS]
      have harg : yAt state POINTS + -(thetaAt state POINTS) * state.length +
          (-(yAt state POINTS) - -(thetaAt state POINTS) * state.length) = 0 := by
        ring
      rw [harg]
      simp [jsdiv, hEI, snapOpt, snapQ_zero]
  · intro ka kb htype hka hkb hA hB hgap
    have hBA : state.supportB - state.supportA ≠ 0 := by
      intro h0
      rw [h0, abs_zero] at hgap
      exact absurd hgap (by norm_num)
    have hia := supportIdx_eq state ka hka hdx state.supportA hA
    have hib := supportIdx_eq state kb hkb hdx state.supportB hB
    have hC : integConstants state =
        ((yAt state ka - yAt state kb) / (state.supportB - state.supportA),
         -(yAt state ka) -
           (yAt state ka - yAt state kb) / (state.supportB - state.supportA) *
             state.supportA) := by
      simp only [integConstants, htype, hia, hib]
      rw [if_pos hgap]
    constructor
    · simp only [deflectionAt, hC]
      have hx : xAt state ka = state.supportA := by rw [xAt, ← hA]
      rw [hx]
      have harg : yAt state ka +
          (yAt state ka - yAt state kb) / (state.supportB - state.supportA) *
            state.supportA +
          (-(yAt state ka) -
            (yAt state ka - yAt state kb) / (state.supportB - state.supportA) *
              state.supportA) = 0 := by
        ring
      rw [harg]
      simp [jsdiv, hEI, snapOpt, snapQ_zero]
    · simp only [deflectionAt, hC]
      have hx : xAt state kb = state.supportB := by rw [xAt, ← hB]
      rw [hx]
      have hcancel : (yAt state ka - yAt state kb) /
          (state.supportB - state.supportA) *
          (state.supportB - state.supportA) =
          yAt state ka - yAt state kb := div_mul_cancel₀ _ hBA
      have harg : yAt state kb +
          (yAt state ka - yAt state kb) / (state.supportB - state.supportA) *
            state.supportB +
          (-(yAt state ka) -
            (yAt state ka - yAt state kb) / (state.supportB - state.supportA) *
              state.supportA) = 0 := by
        linear_combination hcancel
      rw [harg]
      simp [jsdiv, hEI, snapOpt, snapQ_zero]

/-- Witness for C8: the right-fixed cantilever with a midspan load satisfies
the hypotheses and its final sample has zero slope and deflection. -/
theorem C8_boundary_conditions_witness :
    0 < rightFixedBeam.length ∧ EI rightFixedBeam ≠ 0 ∧
    slopeAt rightFixedBeam POINTS = some 0 ∧
    deflectionAt rightFixedBeam POINTS = some 0 := by
  have hL : 0 < rightFixedBeam.length := by norm_num [rightFixedBeam]
  have hEI : EI rightFixedBeam ≠ 0 := by
    norm_num [EI, E_kpa, I_m4, jsOrDefault, rightFixedBeam, ipe100, steel]
  have h := (C8_boundary_conditions rightFixedBeam hL hEI).2.1 rfl
  exact ⟨hL, hEI, h.1, h.2⟩

/-- C7 counterexample: with an empty load list but zero flexural stiffness
(Custom profile), the slope of the first sample is the non-finite result of a
division by zero, not `0`, so the claim fails as stated for every BeamState. -/
theorem C7_empty_loads_counterexample :
    zeroStiffnessSimpleBeam.loads = [] ∧
    (sampleAt zeroStiffnessSimpleBeam 0).slope ≠ some 0 := by
  refine ⟨rfl, ?_⟩
  have hEI : EI zeroStiffnessSimpleBeam = 0 := by
    norm_num [EI, E_kpa, I_m4, jsOrDefault, zeroStiffnessSimpleBeam, customP,
              steel]
  show slopeAt zeroStiffnessSimpleBeam 0 ≠ some 0
  simp [slopeAt, jsdiv, hEI]

/-- C7 as amended: for every BeamState with an empty load list and nonzero
flexural stiffness `EI`, the reactions are all zero and every sample of the
result sequence has zero shear, moment, slope and deflection.  (With `EI = 0`
the unguarded Pass-2 division makes slope and deflection non-finite instead;
see the counterexample.) -/
theorem C7_empty_loads_zero (state : BeamState) (hloads : state.loads = [])
    (hEI : EI state ≠ 0) :
    calculateReactions state = ⟨0, 0, 0⟩ ∧
    ∀ s ∈ calculateDiagrams state,
      s.shear = 0 ∧ s.moment = 0 ∧ s.slope = some 0 ∧ s.deflection = some 0 := by
  refine ⟨calculateReactions_nil state hloads, ?_⟩
  intro s hs
  rw [calculateDiagrams, List.mem_map] at hs
  obtain ⟨i, -, rfl⟩ := hs
  refine ⟨?_, ?_, ?_, ?_⟩
  · show snapQ (shearAt state i) = 0
    rw [shearAt_nil state hloads i, snapQ_zero]
  · show snapQ (momentAt state i) = 0
    rw [momentAt_nil state hloads i, snapQ_zero]
  · show slopeAt state i = some 0
    simp only [slopeAt]
    rw [integConstants_nil state hloads, thetaAt_nil state hloads i]
    simp [jsdiv, hEI]
  · show deflectionAt state i = some 0
    simp only [deflectionAt]
    rw [integConstants_nil state hloads, yAt_nil state hloads i]
    simp [jsdiv, hEI, snapOpt, snapQ_zero]

/-- Witness for C7: an unloaded simple beam with ordinary stiffness yields
zero reactions and a zero first sample. -/
theorem C7_empty_loads_zero_witness :
    emptyLoadBeam.loads = [] ∧ EI emptyLoadBeam ≠ 0 ∧
    calculateReactions emptyLoadBeam = ⟨0, 0, 0⟩ ∧
    (sampleAt emptyLoadBeam 0).slope = some 0 := by
  have hEI : EI emptyLoadBeam ≠ 0 := by
    norm_num [EI, E_kpa, I_m4, jsOrDefault, emptyLoadBeam, ipe100, steel]
  have h := C7_empty_loads_zero emptyLoadBeam rfl hEI
  refine ⟨rfl, hEI, h.1, ?_⟩
  have hmem : sampleAt emptyLoadBeam 0 ∈ calculateDiagrams emptyLoadBeam := by
    rw [calculateDiagrams]
    exact List.mem_map_of_mem _ (List.mem_range.mpr (by norm_num [POINTS]))
  exact (h.2 _ hmem).2.2.1

/-- Witness for C10: with the Custom profile and `customI = 0` the engine
falls back to `profile.I = 0` and the flexural stiffness is zero. -/
theorem C10_customI_fallback_witness :
    (customZeroBeam.customI = some 0 ∨ customZeroBeam.customI = none) ∧
    I_m4 customZeroBeam = customZeroBeam.profile.I / 100000000 ∧
    EI customZeroBeam = 0 :=
  ⟨Or.inl rfl, (C10_customI_fallback customZeroBeam (Or.inl rfl)).1,
   (C10_customI_fallback customZeroBeam (Or.inl rfl)).2 rfl⟩

end BeamV3
